import Mathlib

/-!
Verification of the GloomhavenTools `GoogleFileManagerService`
(the document cache & synchronization engine).

The service keeps an in-memory cache of JSON documents stored on Google
Drive.  All cache mutation flows through a multicast subject
`_fileEvent$` of `FileAlertEvent`s, which a `scan` folds into a snapshot
`Map<string, JsonFile>`.  Synchronization operations (load, unload,
save, create, discovery) talk to the Drive client and publish events on
the bus.

This file gives a shallow embedding of that code:

* JSON values are the inductive type `Json`; `Json.stringify` models the
  platform `JSON.stringify` on such values.
* A `JsonFile` (the class `model_data/json-file` referenced by the
  service) is a structure; the members the service uses that are not in
  the service source itself are modelled from the specification and
  marked as such.
* The cache snapshot is an association list `SnapMap` with JavaScript
  `Map` `get`/`set`/`delete` semantics.
* Asynchronous operations become pure functions from their inputs (and
  the outcomes of their external Drive calls) to their result together
  with the list of events they publish on `_fileEvent$` and the list of
  remote calls they issue.
-/

/-- A JSON value, the `content` of documents managed by the service. -/
inductive Json where
  | null : Json
  | bool (b : Bool) : Json
  | num (n : Int) : Json
  | str (s : String) : Json
  | arr (elems : List Json) : Json
  | obj (fields : List (String × Json)) : Json

mutual

/-- Structural decidable equality of JSON values (JavaScript compares a
document's baseline and current content structurally to detect a diff). -/
def Json.decEq : (a b : Json) → Decidable (a = b)
  | .null, .null => .isTrue rfl
  | .null, .bool _ => .isFalse (fun h => Json.noConfusion h)
  | .null, .num _ => .isFalse (fun h => Json.noConfusion h)
  | .null, .str _ => .isFalse (fun h => Json.noConfusion h)
  | .null, .arr _ => .isFalse (fun h => Json.noConfusion h)
  | .null, .obj _ => .isFalse (fun h => Json.noConfusion h)
  | .bool _, .null => .isFalse (fun h => Json.noConfusion h)
  | .bool a, .bool b =>
      if h : a = b then .isTrue (by rw [h]) else
        .isFalse (by intro hh; injection hh; exact h ‹_›)
  | .bool _, .num _ => .isFalse (fun h => Json.noConfusion h)
  | .bool _, .str _ => .isFalse (fun h => Json.noConfusion h)
  | .bool _, .arr _ => .isFalse (fun h => Json.noConfusion h)
  | .bool _, .obj _ => .isFalse (fun h => Json.noConfusion h)
  | .num _, .null => .isFalse (fun h => Json.noConfusion h)
  | .num _, .bool _ => .isFalse (fun h => Json.noConfusion h)
  | .num a, .num b =>
      if h : a = b then .isTrue (by rw [h]) else
        .isFalse (by intro hh; injection hh; exact h ‹_›)
  | .num _, .str _ => .isFalse (fun h => Json.noConfusion h)
  | .num _, .arr _ => .isFalse (fun h => Json.noConfusion h)
  | .num _, .obj _ => .isFalse (fun h => Json.noConfusion h)
  | .str _, .null => .isFalse (fun h => Json.noConfusion h)
  | .str _, .bool _ => .isFalse (fun h => Json.noConfusion h)
  | .str _, .num _ => .isFalse (fun h => Json.noConfusion h)
  | .str a, .str b =>
      if h : a = b then .isTrue (by rw [h]) else
        .isFalse (by intro hh; injection hh; exact h ‹_›)
  | .str _, .arr _ => .isFalse (fun h => Json.noConfusion h)
  | .str _, .obj _ => .isFalse (fun h => Json.noConfusion h)
  | .arr _, .null => .isFalse (fun h => Json.noConfusion h)
  | .arr _, .bool _ => .isFalse (fun h => Json.noConfusion h)
  | .arr _, .num _ => .isFalse (fun h => Json.noConfusion h)
  | .arr _, .str _ => .isFalse (fun h => Json.noConfusion h)
  | .arr a, .arr b =>
      match Json.decEqArr a b with
      | .isTrue h => .isTrue (by rw [h])
      | .isFalse h => .isFalse (by intro hh; injection hh; exact h ‹_›)
  | .arr _, .obj _ => .isFalse (fun h => Json.noConfusion h)
  | .obj _, .null => .isFalse (fun h => Json.noConfusion h)
  | .obj _, .bool _ => .isFalse (fun h => Json.noConfusion h)
  | .obj _, .num _ => .isFalse (fun h => Json.noConfusion h)
  | .obj _, .str _ => .isFalse (fun h => Json.noConfusion h)
  | .obj _, .arr _ => .isFalse (fun h => Json.noConfusion h)
  | .obj a, .obj b =>
      match Json.decEqObj a b with
      | .isTrue h => .isTrue (by rw [h])
      | .isFalse h => .isFalse (by intro hh; injection hh; exact h ‹_›)

/-- Decidable equality of JSON array element lists. -/
def Json.decEqArr : (a b : List Json) → Decidable (a = b)
  | [], [] => .isTrue rfl
  | [], _ :: _ => .isFalse (fun h => List.noConfusion h)
  | _ :: _, [] => .isFalse (fun h => List.noConfusion h)
  | a :: as, b :: bs =>
      match Json.decEq a b, Json.decEqArr as bs with
      | .isTrue h1, .isTrue h2 => .isTrue (by rw [h1, h2])
      | .isFalse h1, _ => .isFalse (by intro hh; injection hh; exact h1 ‹_›)
      | _, .isFalse h2 => .isFalse (by intro hh; injection hh; exact h2 ‹_›)

/-- Decidable equality of JSON object field lists. -/
def Json.decEqObj : (a b : List (String × Json)) → Decidable (a = b)
  | [], [] => .isTrue rfl
  | [], _ :: _ => .isFalse (fun h => List.noConfusion h)
  | _ :: _, [] => .isFalse (fun h => List.noConfusion h)
  | (k, v) :: as, (l, w) :: bs =>
      match String.decEq k l, Json.decEq v w, Json.decEqObj as bs with
      | .isTrue h1, .isTrue h2, .isTrue h3 => .isTrue (by rw [h1, h2, h3])
      | .isFalse h1, _, _ =>
          .isFalse (by intro hh; injection hh with hp ht; exact h1 (congrArg Prod.fst hp))
      | _, .isFalse h2, _ =>
          .isFalse (by intro hh; injection hh with hp ht; exact h2 (congrArg Prod.snd hp))
      | _, _, .isFalse h3 => .isFalse (by intro hh; injection hh with hp ht; exact h3 ht)

end

instance : DecidableEq Json := Json.decEq

/-- JSON string escaping of one character, as `JSON.stringify` performs it
for the characters that occur in this development. -/
def escapeJsonChar (c : Char) : String :=
  if c = '"' then "\\\""
  else if c = '\\' then "\\\\"
  else if c = '\n' then "\\n"
  else if c = '\r' then "\\r"
  else if c = '\t' then "\\t"
  else String.singleton c

/-- JSON string escaping, as `JSON.stringify` performs it. -/
def escapeJson (s : String) : String :=
  String.join (s.toList.map escapeJsonChar)

mutual

/-- Models the platform `JSON.stringify` on `Json` values (object keys
are kept in insertion order, as JavaScript does). -/
def Json.stringify : Json → String
  | .null => "null"
  | .bool true => "true"
  | .bool false => "false"
  | .num n => toString n
  | .str s => "\"" ++ escapeJson s ++ "\""
  | .arr elems => "[" ++ Json.stringifyArr elems ++ "]"
  | .obj fields => "\x7b" ++ Json.stringifyObj fields ++ "\x7d"

/-- Comma-separated serialization of a JSON array's elements. -/
def Json.stringifyArr : List Json → String
  | [] => ""
  | [j] => Json.stringify j
  | j :: rest => Json.stringify j ++ "," ++ Json.stringifyArr rest

/-- Comma-separated serialization of a JSON object's fields. -/
def Json.stringifyObj : List (String × Json) → String
  | [] => ""
  | [(k, v)] => "\"" ++ escapeJson k ++ "\":" ++ Json.stringify v
  | (k, v) :: rest =>
      "\"" ++ escapeJson k ++ "\":" ++ Json.stringify v ++ "," ++ Json.stringifyObj rest

end

/-- Modelled from the spec: the `JsonFile` class (`model_data/json-file`
is not part of the service source).  A Document value object: identity
(`id`), display `name`, the `editable` capability flag, the store-side
`modifiedTime`, and two logical generations of content — a `baseline`
captured at load/save time and the live-edited `current` value — used
to compute a diff lazily. -/
structure JsonFile where
  id : String := ""
  name : String := ""
  editable : Bool := false
  modifiedTime : String := ""
  baseline : Json := Json.null
  current : Json := Json.null
  deriving DecidableEq

/-- Modelled from the spec: a Document's `content` is its live (current)
value — opaque parsed JSON or a structured error descriptor. -/
def JsonFile.content (f : JsonFile) : Json := f.current

/-- Modelled from the spec: assigning `file.content = j` stores the value
as the document's content; the baseline generation is captured at
load/save time, so loading a document leaves it with no pending diff. -/
def JsonFile.setContent (f : JsonFile) (j : Json) : JsonFile :=
  { f with current := j, baseline := j }

/-- Modelled from the spec: `getDiffData` computes the diff between the
document's baseline and current content lazily; it is empty (falsy)
exactly when the two generations coincide, in which case saving is a
no-op. -/
def JsonFile.getDiffData (f : JsonFile) : Option Json :=
  if f.current = f.baseline then none else some f.current

/-- Modelled from the spec: `contentAsString` renders the raw document
content as text (the body of the multipart save/create request). -/
def JsonFile.contentAsString (f : JsonFile) : String :=
  Json.stringify f.current

/-- Modelled from the spec: `updateClone` produces the new Document
generation published by a successful save, whose baseline now equals the
just-saved current content (diff cleared). -/
def JsonFile.updateClone (f : JsonFile) : JsonFile :=
  { f with baseline := f.current }

/-- Modelled from the spec: `JsonFile.MIME_TYPE`, the fixed, known MIME
type constant for documents managed by this app, shared between the
metadata and content parts of every multipart request. -/
def JsonFile.MIME_TYPE : String := "application/json"

/-!
## The Event Bus

`FileAlertAction` is a union of the five string literals
`'load' | 'unload' | 'error' | 'update' | 'save'`; at runtime an action
is a string and the Cache Projector compares it against those literals,
so it is embedded as `String`.  `file` is `null` only for the bootstrap
sentinel, hence an `Option`.
-/

/-- A life-cycle event on the `_fileEvent$` bus (or the bootstrap
sentinel fed to the fold). -/
structure FileAlertEvent where
  action : String
  file : Option JsonFile
  deriving DecidableEq

/-!
## The Cache Snapshot

The snapshot is a JavaScript `Map<string, JsonFile>`: insertion-ordered,
with at most one entry per key.  It is embedded as an association list;
`set` overwrites in place or appends, `delete` removes the entry with
the key.
-/

/-- The cache snapshot: an insertion-ordered map from document id to
document. -/
abbrev SnapMap := List (String × JsonFile)

/-- JavaScript `Map.prototype.get`. -/
def SnapMap.get (k : String) : SnapMap → Option JsonFile
  | [] => none
  | (k', v) :: rest => if k' = k then some v else SnapMap.get k rest

/-- JavaScript `Map.prototype.set`: overwrite the entry in place if the
key is present, append otherwise. -/
def SnapMap.set (k : String) (v : JsonFile) : SnapMap → SnapMap
  | [] => [(k, v)]
  | (k', v') :: rest =>
      if k' = k then (k, v) :: rest else (k', v') :: SnapMap.set k v rest

/-- JavaScript `Map.prototype.delete`: remove the entry with the key, a
no-op when absent.  (A `Map` holds at most one entry per key; on an
association list this removes every entry with the key, which agrees
with `Map` on every list representing one.) -/
def SnapMap.delete (k : String) : SnapMap → SnapMap
  | [] => []
  | (k', v') :: rest =>
      if k' = k then SnapMap.delete k rest else (k', v') :: SnapMap.delete k rest

/-!
## The Cache Projector

`initializeFileCashe` folds the event bus into the snapshot with `scan`:

```
const accumulator = (accMap, event) => {
  if (event.file == null) { return accMap; }
  if (event.action === "error" || event.action === "unload") {
    accMap.delete(event.file.id);
  } else if (event.action === "load" || event.action === "save"
             || event.action === "update") {
    accMap.set(event.file.id, event.file);
  } else {
    throw Error("Unrecognised FileAlertEvent: " + event.action);
  }
  return accMap;
};
this._cachedFiles$ = this._fileEvent$.pipe(
  startWith({ action: 'error', file: null }),
  scan(accumulator, new Map<string, JsonFile>()),
  shareReplay(1));
```

The `throw` is a fatal, unrecoverable condition, embedded as the
`Except.error` case.
-/

/-- The Cache Projector's reducer (`accumulator` in
`initializeFileCashe`). -/
def accumulator (accMap : SnapMap) (event : FileAlertEvent) : Except String SnapMap :=
  match event.file with
  | none => .ok accMap
  | some f =>
      if event.action = "error" ∨ event.action = "unload" then
        .ok (SnapMap.delete f.id accMap)
      else if event.action = "load" ∨ event.action = "save" ∨ event.action = "update" then
        .ok (SnapMap.set f.id f accMap)
      else
        .error ("Unrecognised FileAlertEvent: " ++ event.action)

/-- Folding a whole event sequence into the snapshot (the cumulative
effect of `scan accumulator`), stopping at the first fatal error. -/
def foldEvents (accMap : SnapMap) (events : List FileAlertEvent) : Except String SnapMap :=
  events.foldlM accumulator accMap

/-- The bootstrap sentinel seeded into the fold by `startWith`; the only
null-file event, and it never flows through the raw `_fileEvent$`
subject. -/
def sentinelEvent : FileAlertEvent := { action := "error", file := none }

/-- The snapshot held by `_cachedFiles$` after the bus has carried
`busEvents`: the fold of the sentinel followed by the bus history,
starting from the empty map. -/
def latestSnapshot (busEvents : List FileAlertEvent) : Except String SnapMap :=
  foldEvents [] (sentinelEvent :: busEvents)

/-!
## The Subscription Layer
-/

/-- The synthesized event `listenDocumentById` emits for an id absent
from the snapshot (`createErrorEvent` in the source): a fresh
`JsonFile` carrying the requested id whose content is the structured
`File Not Found` error descriptor. -/
def createErrorEvent (id : String) : FileAlertEvent :=
  let errFile : JsonFile := { id := id }
  let errFile := errFile.setContent (Json.obj
    [("error", Json.obj
      [("type", Json.str "File Not Found"),
       ("message", Json.str ("Document with id='" ++ id ++ "' not found"))])])
  { action := "error", file := some errFile }

/-- The single "current state" event `listenDocumentById` emits on
subscription (`currentState$`): the latest snapshot's entry as a `load`
event when present, the synthesized error event otherwise. -/
def currentStateEvent (docId : String) (snap : SnapMap) : FileAlertEvent :=
  match SnapMap.get docId snap with
  | some file => { action := "load", file := some file }
  | none => createErrorEvent docId

/-- The subsequent emissions of `listenDocumentById` (`futureState$`):
the bus events whose `file.id` equals the requested id, unfiltered by
action.  (On the raw bus `file` is never null; a null file cannot
match.) -/
def futureStateEvents (docId : String) (busEvents : List FileAlertEvent) : List FileAlertEvent :=
  busEvents.filter (fun e => (e.file.map JsonFile.id) = some docId)

/-- `listenDocumentById`: everything a subscriber receives, given the
latest snapshot at subscription time and the bus events published
afterwards. -/
def listenDocumentById (docId : String) (snap : SnapMap)
    (busEvents : List FileAlertEvent) : List FileAlertEvent :=
  currentStateEvent docId snap :: futureStateEvents docId busEvents

/-!
## Synchronization Operations

Each asynchronous operation is embedded as a pure function from its
inputs — together with the outcomes of the external Drive-client calls
it makes — to its result, paired with the list of `FileAlertEvent`s it
publishes on `_fileEvent$` (and, for the discovery operations, the list
of remote calls it issues).
-/

/-- The metadata half of the two-step remote read: the fields of
`client.drive.files.get({fileId, fields})` that `getJsonFileFromDrive`
consumes. -/
structure DriveFileMetadata where
  id : String
  name : String
  modifiedTime : String
  canDownload : Bool
  canRename : Bool
  canModifyContent : Bool
  deriving DecidableEq

/-- `getJsonFileFromDrive`: the two-step remote read.  `meta` is the
metadata response; `parsed` is the outcome of the platform
`JSON.parse` on the raw content body fetched with `alt: 'media'`.
Fails (throws) with the "cannot download" condition exactly when the
store reports `capabilities.canDownload` false; a parse failure is
captured as an error-content document.  The second component is what it
publishes on `_fileEvent$`: nothing, it is a pure query. -/
def getJsonFileFromDrive (meta : DriveFileMetadata) (parsed : Except String Json) :
    Except String JsonFile × List FileAlertEvent :=
  if !meta.canDownload then
    (.error "Cannot Download File (capabilities.canDownload) - [object Object]", [])
  else
    let file : JsonFile :=
      { id := meta.id
        name := meta.name
        editable := meta.canRename && meta.canModifyContent
        modifiedTime := meta.modifiedTime }
    match parsed with
    | .ok content => (.ok (file.setContent content), [])
    | .error msg =>
        (.ok (file.setContent (Json.obj
          [("error", Json.obj
            [("type", Json.str "Parsing"),
             ("message", Json.str msg)])])), [])

/-- `loadById`: pipes the `getJsonFileFromDrive` result (`fetched`) into
a `load` event on the bus and maps the emission to `true`; a fetch
failure propagates as a failure and publishes nothing. -/
def loadById (fetched : Except String JsonFile) :
    Except String Bool × List FileAlertEvent :=
  match fetched with
  | .ok file => (.ok true, [{ action := "load", file := some file }])
  | .error e => (.error e, [])

/-- `unloadFile`: publishes an `unload` event for the given file when it
is non-null (document ids are strings in this model, so `file?.id !=
null` holds for every present file). -/
def unloadFile : Option JsonFile → List FileAlertEvent
  | some file => [{ action := "unload", file := some file }]
  | none => []

/-- `unloadById`: result (`true` iff a file with that id was cached)
paired with the events published.  The guard `docID?.length < 1` only
triggers on a present, empty id: for a null id `docID?.length` is
`undefined` in JavaScript and `undefined < 1` is `false`, so the code
falls through to `Map.get(undefined)`, which finds nothing. -/
def unloadById (docID : Option String) (snap : SnapMap) :
    Bool × List FileAlertEvent :=
  match docID with
  | none =>
      let file : Option JsonFile := none
      (file.isSome, unloadFile file)
  | some s =>
      if s.length < 1 then (false, [])
      else
        let file := SnapMap.get s snap
        (file.isSome, unloadFile file)

/-- `clearAllDocuments`: publishes one `unload` event per cached file,
in snapshot (insertion) order. -/
def clearAllDocuments (snap : SnapMap) : List FileAlertEvent :=
  snap.map (fun e => { action := "unload", file := some e.2 })

/-- `loadAllAccessibleFiles`: one `loadById` per discovered `(id, name)`
pair, merged, then `reduce((acc, val) => acc && val)`.  Each inner
stream emits exactly one `true` (`mapTo(true)`) or terminates with its
fetch error; `merge` tears the whole aggregate down at the first inner
error (remaining results are dropped), and `reduce` without a seed on
an empty merge fails with RxJS's "no elements in sequence".
`fetchById` gives the `getJsonFileFromDrive` outcome per document id. -/
def loadAllAccessibleFiles (fetchById : String → Except String JsonFile)
    (files : List (String × String)) : Except String Bool :=
  match files with
  | [] => .error "no elements in sequence"
  | _ =>
      files.foldlM
        (fun acc f => ((loadById (fetchById f.1)).1).map (fun v => acc && v))
        true

/-!
## Discovery and the process-wide caches

`getFolderId` and `getFileManagerAppFile` read the service fields
`_folderId` and `_fileManagerAppFile`; the service instance state is the
structure `ManagerState`, and each operation returns the state it leaves
behind together with its result and the remote calls it issued.
-/

/-- Name of the folder where the app saves the documents it creates. -/
def folderName : String := "GloomhavenToolsDocs"

/-- Suffix appended to created file names. -/
def fileNameAffix : String := "-gloomtools"

/-- Name of the reserved file where the file manager keeps its
settings. -/
def fileManagerAppFileName : String := "file-manager-data.json"

/-- The Drive MIME type of a folder. -/
def folderType : String := "application/vnd.google-apps.folder"

/-- The service instance's process-wide mutable fields: `_folderId`
(declared `private _folderId: string`) and `_fileManagerAppFile`.  A
field that has never been assigned is `none` (JavaScript
`undefined`). -/
structure ManagerState where
  _folderId : Option String := none
  _fileManagerAppFile : Option JsonFile := none
  deriving DecidableEq

/-- What the store returns to a discovery operation: the ids matching
the list query, and the id a create call would return. -/
structure DriveListEnv where
  matching : List String
  createdId : String
  deriving DecidableEq

/-- `getFolderId`: returns the cached `_folderId` when it is set and
non-empty; otherwise queries for an existing folder with the well-known
name (using the first match) and only creates one when none is found.
No branch assigns `_folderId` — the source never writes that field —
so the state comes back unchanged. -/
def getFolderId (st : ManagerState) (env : DriveListEnv) :
    ManagerState × String × List String :=
  let listCall :=
    "drive.files.list(q=mimeType='" ++ folderType ++ "' and name='"
      ++ folderName ++ "' and trashed = false)"
  let createCall :=
    "drive.files.create(mimeType='" ++ folderType ++ "', name='" ++ folderName ++ "')"
  let discover : ManagerState × String × List String :=
    match env.matching with
    | fid :: _ => (st, fid, [listCall])
    | [] => (st, env.createdId, [listCall, createCall])
  match st._folderId with
  | some fid => if fid.length > 0 then (st, fid, []) else discover
  | none => discover

/-- `getAppDataByName`: queries the `appDataFolder` for a file with the
given name (using the first match) and only creates one when none is
found, then pipes the resolved id into `getJsonFileFromDrive`
(`fetchById` gives that call's outcome per id).  Returns the fetched
file and the remote calls issued. -/
def getAppDataByName (name : String) (env : DriveListEnv)
    (fetchById : String → Except String JsonFile) :
    Except String JsonFile × List String :=
  let listCall := "drive.files.list(spaces=appDataFolder, q=name='" ++ name ++ "')"
  let createCall :=
    "drive.files.create(name='" ++ name ++ "', parents=[appDataFolder])"
  match env.matching with
  | fid :: _ => (fetchById fid, [listCall, "getJsonFileFromDrive"])
  | [] => (fetchById env.createdId, [listCall, createCall, "getJsonFileFromDrive"])

/-- `getFileManagerAppFile`: returns the cached `_fileManagerAppFile`
when it is set with a non-empty id; otherwise resolves the reserved
settings file through `getAppDataByName` and caches it
(`tap(file => this._fileManagerAppFile = file)`). -/
def getFileManagerAppFile (st : ManagerState) (env : DriveListEnv)
    (fetchById : String → Except String JsonFile) :
    ManagerState × Except String JsonFile × List String :=
  let run : ManagerState × Except String JsonFile × List String :=
    match getAppDataByName fileManagerAppFileName env fetchById with
    | (.ok file, calls) => ({ st with _fileManagerAppFile := some file }, .ok file, calls)
    | (.error e, calls) => (st, .error e, calls)
  match st._fileManagerAppFile with
  | some f => if f.id.length > 0 then (st, .ok f, []) else run
  | none => run

/-!
## Save and create: the multipart wire format
-/

/-- The parts of a `client.request` call that the save/create operations
fill in. -/
structure HttpRequest where
  path : String
  method : String
  uploadType : String
  contentTypeHeader : String
  body : String
  deriving DecidableEq

/-- The fixed multipart boundary marker used by `saveJsonFile` and
`createAndSaveNewJsonFile`. -/
def boundary : String := "-------314159265358979323846"

/-- The part delimiter derived from the boundary. -/
def delimiter : String := "\r\n--" ++ boundary ++ "\r\n"

/-- The closing delimiter derived from the boundary. -/
def close_delim : String := "\r\n--" ++ boundary ++ "--"

/-- `saveJsonFile`: computes the diff between baseline and current
content; with no diff it short-circuits, returning the input document
with no remote call and no event.  Otherwise it builds the multipart
body from the metadata `{name, mimeType}` and the raw content, issues
one `PATCH` to `/upload/drive/v3/files/<id>`, and publishes a `save`
event carrying the new document generation (`file.updateClone()`).
Returns the resulting document, the remote requests issued, and the
events published. -/
def saveJsonFile (file : JsonFile) :
    JsonFile × List HttpRequest × List FileAlertEvent :=
  match file.getDiffData with
  | none => (file, [], [])
  | some _ =>
      let metadata := Json.obj
        [("name", Json.str file.name),
         ("mimeType", Json.str JsonFile.MIME_TYPE)]
      let multipartRequestBody :=
        delimiter ++
        "Content-Type: application/json\r\n\r\n" ++
        Json.stringify metadata ++
        delimiter ++
        "Content-Type: " ++
        JsonFile.MIME_TYPE ++
        "\r\n\r\n" ++
        file.contentAsString ++
        close_delim
      let req : HttpRequest :=
        { path := "/upload/drive/v3/files/" ++ file.id
          method := "PATCH"
          uploadType := "multipart"
          contentTypeHeader := "multipart/related; boundary=\"" ++ boundary ++ "\""
          body := multipartRequestBody }
      let saved := file.updateClone
      (saved, [req], [{ action := "save", file := some saved }])

/-- `createAndSaveNewJsonFile`: builds a fresh document named
`name + fileNameAffix + ".json"` (assigning `content` when it is not
null), builds the multipart create body from the metadata
`{name, parents, mimeType}` and the raw content, issues one `POST` to
`/upload/drive/v3/files`, assigns the store-returned id and
modifiedTime onto the document, and publishes a `save` event for it.
`folder` is the resolved `getFolderId` result; `resId` and
`resModifiedTime` are the create response's fields. -/
def createAndSaveNewJsonFile (name : String) (content : Option Json)
    (folder : String) (resId resModifiedTime : String) :
    JsonFile × List HttpRequest × List FileAlertEvent :=
  let newJsonFile : JsonFile := { name := name ++ fileNameAffix ++ ".json" }
  let newJsonFile :=
    match content with
    | some c => newJsonFile.setContent c
    | none => newJsonFile
  let metadata := Json.obj
    [("name", Json.str newJsonFile.name),
     ("parents", Json.arr [Json.str folder]),
     ("mimeType", Json.str JsonFile.MIME_TYPE)]
  let multipartRequestBody :=
    delimiter ++
    "Content-Type: application/json\r\n\r\n" ++
    Json.stringify metadata ++
    delimiter ++
    "Content-Type: " ++
    JsonFile.MIME_TYPE ++
    "\r\n\r\n" ++
    newJsonFile.contentAsString ++
    close_delim
  let req : HttpRequest :=
    { path := "/upload/drive/v3/files"
      method := "POST"
      uploadType := "multipart"
      contentTypeHeader := "multipart/related; boundary=\"" ++ boundary ++ "\""
      body := multipartRequestBody }
  let file := { newJsonFile with id := resId, modifiedTime := resModifiedTime }
  (file, [req], [{ action := "save", file := some file }])

/-!
## Properties of the snapshot map operations
-/

theorem SnapMap.get_set_self (k : String) (v : JsonFile) (m : SnapMap) :
    SnapMap.get k (SnapMap.set k v m) = some v := by
  induction m with
  | nil => simp [SnapMap.get, SnapMap.set]
  | cons hd tl ih =>
      obtain ⟨k', v'⟩ := hd
      by_cases h : k' = k <;> simp [SnapMap.get, SnapMap.set, h, ih]

theorem SnapMap.get_set_other (k k' : String) (v : JsonFile) (m : SnapMap)
    (hne : k' ≠ k) : SnapMap.get k' (SnapMap.set k v m) = SnapMap.get k' m := by
  induction m with
  | nil => simp [SnapMap.get, SnapMap.set, Ne.symm hne]
  | cons hd tl ih =>
      obtain ⟨a, b⟩ := hd
      by_cases h : a = k
      · subst h
        simp [SnapMap.get, SnapMap.set, Ne.symm hne]
      · simp [SnapMap.get, SnapMap.set, h, ih]

theorem SnapMap.get_delete_self (k : String) (m : SnapMap) :
    SnapMap.get k (SnapMap.delete k m) = none := by
  induction m with
  | nil => simp [SnapMap.get, SnapMap.delete]
  | cons hd tl ih =>
      obtain ⟨a, b⟩ := hd
      by_cases h : a = k <;> simp [SnapMap.get, SnapMap.delete, h, ih]

theorem SnapMap.get_delete_other (k k' : String) (m : SnapMap)
    (hne : k' ≠ k) : SnapMap.get k' (SnapMap.delete k m) = SnapMap.get k' m := by
  induction m with
  | nil => simp [SnapMap.delete]
  | cons hd tl ih =>
      obtain ⟨a, b⟩ := hd
      by_cases h : a = k
      · subst h
        simp [SnapMap.get, SnapMap.delete, Ne.symm hne, ih]
      · simp [SnapMap.get, SnapMap.delete, h, ih]

theorem SnapMap.delete_absent (k : String) (m : SnapMap)
    (habs : SnapMap.get k m = none) : SnapMap.delete k m = m := by
  induction m with
  | nil => simp [SnapMap.delete]
  | cons hd tl ih =>
      obtain ⟨a, b⟩ := hd
      by_cases h : a = k
      · subst h
        simp [SnapMap.get] at habs
      · simp [SnapMap.get, h] at habs
        simp [SnapMap.delete, h, ih habs]

/-!
## Demonstration values used by the closed witness theorems
-/

/-- A concrete document for witness instantiation. -/
def demoFile : JsonFile := { id := "doc-1", name := "A" }

/-- A second concrete document for witness instantiation. -/
def demoFile2 : JsonFile := { id := "doc-2", name := "B" }

/-- A concrete snapshot holding `demoFile2`. -/
def demoMap : SnapMap := [("doc-2", demoFile2)]

/-- C1: one fold step of the Cache Projector's reducer.  A null-file
event returns the snapshot unchanged; for a `load`, `save` or `update`
action the snapshot maps the file's id to the file (upsert); for an
`unload` or `error` action the entry keyed by the file's id is removed,
a no-op when absent; any other action value is the fatal "unrecognized
event kind" error.  Entries for all other ids are unchanged by the
step. -/
theorem C1_reducer_step (accMap : SnapMap) (event : FileAlertEvent) :
    (event.file = none → accumulator accMap event = .ok accMap) ∧
    (∀ f, event.file = some f →
      ((event.action = "load" ∨ event.action = "save" ∨ event.action = "update") →
        accumulator accMap event = .ok (SnapMap.set f.id f accMap) ∧
        SnapMap.get f.id (SnapMap.set f.id f accMap) = some f ∧
        ∀ k, k ≠ f.id →
          SnapMap.get k (SnapMap.set f.id f accMap) = SnapMap.get k accMap) ∧
      ((event.action = "unload" ∨ event.action = "error") →
        accumulator accMap event = .ok (SnapMap.delete f.id accMap) ∧
        SnapMap.get f.id (SnapMap.delete f.id accMap) = none ∧
        (SnapMap.get f.id accMap = none → SnapMap.delete f.id accMap = accMap) ∧
        ∀ k, k ≠ f.id →
          SnapMap.get k (SnapMap.delete f.id accMap) = SnapMap.get k accMap) ∧
      ((event.action ≠ "load" ∧ event.action ≠ "save" ∧ event.action ≠ "update" ∧
        event.action ≠ "unload" ∧ event.action ≠ "error") →
        accumulator accMap event =
          .error ("Unrecognised FileAlertEvent: " ++ event.action))) := by
  refine ⟨fun hnone => ?_, fun f hf => ⟨fun hact => ?_, fun hact => ?_, fun hact => ?_⟩⟩
  · simp [accumulator, hnone]
  · refine ⟨?_, SnapMap.get_set_self f.id f accMap,
      fun k hk => SnapMap.get_set_other f.id k f accMap hk⟩
    rcases hact with h | h | h <;> simp [accumulator, hf, h]
  · refine ⟨?_, SnapMap.get_delete_self f.id accMap,
      fun habs => SnapMap.delete_absent f.id accMap habs,
      fun k hk => SnapMap.get_delete_other f.id k accMap hk⟩
    rcases hact with h | h <;> simp [accumulator, hf, h]
  · obtain ⟨h1, h2, h3, h4, h5⟩ := hact
    simp [accumulator, hf, h1, h2, h3, h4, h5]

/-- Closed instantiation of `C1_reducer_step`: upsert, removal, the
fatal branch and the sentinel no-op at concrete inputs. -/
theorem C1_reducer_step_witness :
    accumulator demoMap { action := "load", file := some demoFile } =
      .ok (SnapMap.set "doc-1" demoFile demoMap) ∧
    accumulator demoMap { action := "unload", file := some demoFile2 } =
      .ok (SnapMap.delete "doc-2" demoMap) ∧
    accumulator demoMap { action := "bogus", file := some demoFile } =
      .error "Unrecognised FileAlertEvent: bogus" ∧
    accumulator demoMap sentinelEvent = .ok demoMap :=
  ⟨(((C1_reducer_step demoMap _).2 demoFile rfl).1 (Or.inl rfl)).1,
   (((C1_reducer_step demoMap _).2 demoFile2 rfl).2.1 (Or.inl rfl)).1,
   (((C1_reducer_step demoMap _).2 demoFile rfl).2.2
      ⟨by decide, by decide, by decide, by decide, by decide⟩),
   (C1_reducer_step demoMap sentinelEvent).1 rfl⟩

/-- A concrete `load` event for witness instantiation. -/
def demoLoadEvent : FileAlertEvent := { action := "load", file := some demoFile }

/-- A second concrete `load` event for witness instantiation. -/
def demoLoadEvent2 : FileAlertEvent := { action := "load", file := some demoFile2 }

/-- A concrete `unload` event for witness instantiation. -/
def demoUnloadEvent : FileAlertEvent := { action := "unload", file := some demoFile }

/-- C4: the snapshot fold is pure, deterministic and compositional:
folding a whole event sequence from the empty snapshot equals folding
any prefix and then folding the remaining suffix starting from the
prefix's result (with a prefix error propagating), and replaying the
same event sequence always yields the same snapshot. -/
theorem C4_fold_compositional (events xs ys : List FileAlertEvent)
    (hsplit : events = xs ++ ys) :
    (foldEvents [] events = foldEvents [] xs >>= fun m => foldEvents m ys) ∧
    (∀ m, foldEvents [] xs = .ok m → foldEvents [] events = foldEvents m ys) ∧
    (∀ events', events' = events → foldEvents [] events' = foldEvents [] events) := by
  subst hsplit
  have happ : foldEvents [] (xs ++ ys) = foldEvents [] xs >>= fun m => foldEvents m ys := by
    unfold foldEvents
    exact List.foldlM_append accumulator [] xs ys
  refine ⟨happ, fun m hm => ?_, fun _ h => by rw [h]⟩
  rw [happ, hm]
  rfl

/-- Closed instantiation of `C4_fold_compositional` at a concrete
three-event sequence split after its first event. -/
theorem C4_fold_compositional_witness :
    ([demoLoadEvent, demoLoadEvent2, demoUnloadEvent] : List FileAlertEvent) =
      [demoLoadEvent] ++ [demoLoadEvent2, demoUnloadEvent] ∧
    foldEvents [] [demoLoadEvent, demoLoadEvent2, demoUnloadEvent] =
      foldEvents [] [demoLoadEvent] >>=
        fun m => foldEvents m [demoLoadEvent2, demoUnloadEvent] :=
  ⟨rfl, (C4_fold_compositional [demoLoadEvent, demoLoadEvent2, demoUnloadEvent]
      [demoLoadEvent] [demoLoadEvent2, demoUnloadEvent] rfl).1⟩

/-- C2: `listenDocumentById(id)` emits, first, exactly one
current-state event derived from the latest snapshot — a
`{action:'load', file}` event when the snapshot contains the id, else a
synthesized `{action:'error'}` event whose file carries the requested
id and the `File Not Found` error content — and after that exactly the
bus events whose `file.id` equals the id, with no filtering by
action. -/
theorem C2_listenDocumentById_emissions (docId : String) (snap : SnapMap)
    (busEvents : List FileAlertEvent) :
    (listenDocumentById docId snap busEvents =
      currentStateEvent docId snap :: futureStateEvents docId busEvents) ∧
    (∀ f, SnapMap.get docId snap = some f →
      currentStateEvent docId snap = { action := "load", file := some f }) ∧
    (SnapMap.get docId snap = none →
      ∃ f, currentStateEvent docId snap = { action := "error", file := some f } ∧
        f.id = docId ∧
        f.content = Json.obj
          [("error", Json.obj
            [("type", Json.str "File Not Found"),
             ("message",
              Json.str ("Document with id='" ++ docId ++ "' not found"))])]) ∧
    (∀ e, e ∈ futureStateEvents docId busEvents ↔
      e ∈ busEvents ∧ e.file.map JsonFile.id = some docId) := by
  refine ⟨rfl, fun f hf => ?_, fun habs => ?_, fun e => ?_⟩
  · simp [currentStateEvent, hf]
  · simp only [currentStateEvent, habs]
    exact ⟨_, rfl, rfl, rfl⟩
  · simp [futureStateEvents, List.mem_filter]

/-- Closed instantiation of `C2_listenDocumentById_emissions`: the
present and absent current-state shapes and the id-based (not
action-based) filtering of subsequent events, at concrete inputs. -/
theorem C2_listenDocumentById_witness :
    currentStateEvent "doc-2" demoMap = { action := "load", file := some demoFile2 } ∧
    (∃ f, currentStateEvent "missing" demoMap = { action := "error", file := some f } ∧
      f.id = "missing" ∧
      f.content = Json.obj
        [("error", Json.obj
          [("type", Json.str "File Not Found"),
           ("message", Json.str ("Document with id='missing' not found"))])]) ∧
    futureStateEvents "doc-1" [demoLoadEvent, demoLoadEvent2, demoUnloadEvent] =
      [demoLoadEvent, demoUnloadEvent] :=
  ⟨(C2_listenDocumentById_emissions "doc-2" demoMap []).2.1 demoFile2 rfl,
   (C2_listenDocumentById_emissions "missing" demoMap []).2.2.1 rfl,
   by decide⟩

/-- C3: `unloadById` on an id not present in the snapshot returns false
and publishes no event; on a present (non-empty) id it publishes
exactly one `unload` event carrying the cached document and returns
true; a null or empty id is a local, non-failing no-op (false, nothing
published). -/
theorem C3_unloadById (snap : SnapMap) :
    (∀ s, SnapMap.get s snap = none → unloadById (some s) snap = (false, [])) ∧
    (∀ s f, s ≠ "" → SnapMap.get s snap = some f →
      unloadById (some s) snap = (true, [{ action := "unload", file := some f }])) ∧
    unloadById none snap = (false, []) ∧
    unloadById (some "") snap = (false, []) := by
  refine ⟨fun s habs => ?_, fun s f hs hf => ?_, rfl, by simp [unloadById]⟩
  · by_cases hlen : s.length < 1
    · simp [unloadById, hlen]
    · simp [unloadById, hlen, habs, unloadFile]
  · have hlen : ¬s.length < 1 := by
      obtain ⟨data⟩ := s
      cases data with
      | nil => exact absurd rfl hs
      | cons c cs =>
          intro hcontra
          simp [String.length] at hcontra
    simp [unloadById, hlen, hf, unloadFile]

/-- Closed instantiation of `C3_unloadById`: absent id, present id,
null id and empty id at concrete inputs. -/
theorem C3_unloadById_witness :
    unloadById (some "missing") demoMap = (false, []) ∧
    unloadById (some "doc-2") demoMap =
      (true, [{ action := "unload", file := some demoFile2 }]) ∧
    unloadById none demoMap = (false, []) ∧
    unloadById (some "") demoMap = (false, []) :=
  ⟨(C3_unloadById demoMap).1 "missing" rfl,
   (C3_unloadById demoMap).2.1 "doc-2" demoFile2 (by decide) rfl,
   (C3_unloadById demoMap).2.2.1,
   (C3_unloadById demoMap).2.2.2⟩

/-- A concrete document with a pending diff (current differs from
baseline) for witness instantiation. -/
def demoDirtyFile : JsonFile :=
  { id := "doc-1", name := "A", current := Json.obj [("a", Json.num 1)] }

/-- C5: `saveJsonFile` on a document whose diff between baseline and
current content is empty returns the input document unchanged, with
zero remote calls and no published event; only when a diff exists does
it issue the single remote PATCH and then publish a `save` event
(carrying the new generation `updateClone`). -/
theorem C5_saveJsonFile_short_circuit (file : JsonFile) :
    (file.getDiffData = none ↔ file.baseline = file.current) ∧
    (file.getDiffData = none → saveJsonFile file = (file, [], [])) ∧
    (∀ d, file.getDiffData = some d →
      ∃ req, (saveJsonFile file).2.1 = [req] ∧
        req.method = "PATCH" ∧
        req.path = "/upload/drive/v3/files/" ++ file.id ∧
        (saveJsonFile file).2.2 =
          [{ action := "save", file := some file.updateClone }] ∧
        (saveJsonFile file).1 = file.updateClone) := by
  refine ⟨?_, fun h => ?_, fun d hd => ?_⟩
  · constructor
    · intro hnone
      by_cases h : file.current = file.baseline
      · exact h.symm
      · simp [JsonFile.getDiffData, h] at hnone
    · intro hb
      simp [JsonFile.getDiffData, hb.symm]
  · simp [saveJsonFile, h]
  · simp only [saveJsonFile, hd]
    exact ⟨_, rfl, rfl, rfl, by trivial, by trivial⟩

/-- Closed instantiation of `C5_saveJsonFile_short_circuit`: a clean
document is returned unchanged with no request and no event; a dirty
document produces exactly one PATCH and one `save` event. -/
theorem C5_saveJsonFile_witness :
    demoFile.getDiffData = none ∧
    saveJsonFile demoFile = (demoFile, [], []) ∧
    (∃ req, (saveJsonFile demoDirtyFile).2.1 = [req] ∧
      req.method = "PATCH" ∧
      req.path = "/upload/drive/v3/files/" ++ demoDirtyFile.id ∧
      (saveJsonFile demoDirtyFile).2.2 =
        [{ action := "save", file := some demoDirtyFile.updateClone }] ∧
      (saveJsonFile demoDirtyFile).1 = demoDirtyFile.updateClone) :=
  ⟨rfl,
   (C5_saveJsonFile_short_circuit demoFile).2.1 rfl,
   (C5_saveJsonFile_short_circuit demoDirtyFile).2.2 demoDirtyFile.current rfl⟩

/-- Concrete downloadable file metadata for witness instantiation. -/
def demoMeta : DriveFileMetadata :=
  { id := "doc-3", name := "C", modifiedTime := "2020-01-01T00:00:00Z",
    canDownload := true, canRename := true, canModifyContent := true }

/-- Concrete non-downloadable file metadata for witness instantiation. -/
def demoMetaNoDl : DriveFileMetadata := { demoMeta with canDownload := false }

/-- C7: `getJsonFileFromDrive` fails with the "cannot download" error
exactly when the store reports `capabilities.canDownload` false; a JSON
parse failure of the fetched body is captured as a returned document
whose content is the structured `{error:{type,message}}` descriptor
rather than a thrown failure; and in every case it publishes no event
(it is a pure query). -/
theorem C7_getJsonFileFromDrive_query (meta : DriveFileMetadata)
    (parsed : Except String Json) :
    (meta.canDownload = false →
      (getJsonFileFromDrive meta parsed).1 =
        .error "Cannot Download File (capabilities.canDownload) - [object Object]") ∧
    (∀ e, (getJsonFileFromDrive meta parsed).1 = .error e →
      meta.canDownload = false) ∧
    (∀ msg, meta.canDownload = true → parsed = .error msg →
      ∃ f, (getJsonFileFromDrive meta parsed).1 = .ok f ∧
        f.id = meta.id ∧ f.name = meta.name ∧
        f.content = Json.obj
          [("error", Json.obj
            [("type", Json.str "Parsing"), ("message", Json.str msg)])]) ∧
    (∀ j, meta.canDownload = true → parsed = .ok j →
      ∃ f, (getJsonFileFromDrive meta parsed).1 = .ok f ∧
        f.id = meta.id ∧ f.content = j) ∧
    (getJsonFileFromDrive meta parsed).2 = [] := by
  refine ⟨fun hdl => ?_, fun e he => ?_, fun msg hdl hp => ?_, fun j hdl hp => ?_, ?_⟩
  · cases parsed <;> simp [getJsonFileFromDrive, hdl]
  · cases hdl : meta.canDownload
    · rfl
    · cases parsed <;> simp [getJsonFileFromDrive, hdl] at he
  · subst hp
    simp only [getJsonFileFromDrive, hdl]
    exact ⟨_, rfl, rfl, rfl, rfl⟩
  · subst hp
    simp only [getJsonFileFromDrive, hdl]
    exact ⟨_, rfl, rfl, rfl⟩
  · cases hdl : meta.canDownload <;> cases parsed <;>
      simp [getJsonFileFromDrive, hdl]

/-- Closed instantiation of `C7_getJsonFileFromDrive_query`: the
cannot-download failure, the captured parse failure, and the absence of
published events at concrete inputs. -/
theorem C7_getJsonFileFromDrive_witness :
    (getJsonFileFromDrive demoMetaNoDl (.ok Json.null)).1 =
      .error "Cannot Download File (capabilities.canDownload) - [object Object]" ∧
    (∃ f, (getJsonFileFromDrive demoMeta (.error "Unexpected token")).1 = .ok f ∧
      f.id = demoMeta.id ∧ f.name = demoMeta.name ∧
      f.content = Json.obj
        [("error", Json.obj
          [("type", Json.str "Parsing"),
           ("message", Json.str "Unexpected token")])]) ∧
    (getJsonFileFromDrive demoMeta (.ok Json.null)).2 = [] :=
  ⟨(C7_getJsonFileFromDrive_query demoMetaNoDl (.ok Json.null)).1 rfl,
   (C7_getJsonFileFromDrive_query demoMeta (.error "Unexpected token")).2.2.1
     "Unexpected token" rfl rfl,
   (C7_getJsonFileFromDrive_query demoMeta (.ok Json.null)).2.2.2.2⟩

/-- A concrete fetch environment where document "bad" fails its
round-trip and every other id succeeds. -/
def demoFetchById (docID : String) : Except String JsonFile :=
  if docID = "bad" then
    .error "Cannot Download File (capabilities.canDownload) - [object Object]"
  else .ok { id := docID, name := "F " ++ docID }

/-- Each step of the `loadAllAccessibleFiles` reduction either preserves
the accumulator (every surviving emission is `true`) or fails. -/
theorem loadAllFold_ok (fetchById : String → Except String JsonFile)
    (files : List (String × String)) (acc r : Bool)
    (h : files.foldlM
        (fun acc f => ((loadById (fetchById f.1)).1).map (fun v => acc && v))
        acc = .ok r) : r = acc := by
  induction files generalizing acc with
  | nil => exact (Except.ok.inj h).symm
  | cons f fs ih =>
      rcases hfe : fetchById f.1 with e | file
      · have hstep : ((loadById (fetchById f.1)).1).map (fun v => acc && v) =
            Except.error e := by
          rw [hfe]
          rfl
        rw [List.foldlM_cons, hstep] at h
        exact Except.noConfusion h
      · have hstep : ((loadById (fetchById f.1)).1).map (fun v => acc && v) =
            Except.ok acc := by
          rw [hfe]
          simp [loadById, Except.map]
        rw [List.foldlM_cons, hstep] at h
        exact ih acc h

/-- C6: evaluation of `loadAllAccessibleFiles` at a failing input.  The
aggregate terminates with the individual load's error — it never emits
`false`, and the loads after the failing one are torn down — while it
does emit `true` when every load succeeds.  (`loadById` only ever maps
its emission to `true`, so a `false` verdict is unreachable, contrary
to the code's own comment "return true if every file loaded
successfully and load false if any of them failed to load".) -/
theorem C6_loadAllAccessibleFiles_error_aborts :
    loadAllAccessibleFiles demoFetchById [("good", "G"), ("bad", "B"), ("good2", "H")] =
      .error "Cannot Download File (capabilities.canDownload) - [object Object]" ∧
    (∀ b : Bool,
      loadAllAccessibleFiles demoFetchById
        [("good", "G"), ("bad", "B"), ("good2", "H")] ≠ .ok b) ∧
    loadAllAccessibleFiles demoFetchById [("good", "G"), ("good2", "H")] = .ok true ∧
    (∀ fetchById files r,
      loadAllAccessibleFiles fetchById files = .ok r → r = true) := by
  have heval : loadAllAccessibleFiles demoFetchById
      [("good", "G"), ("bad", "B"), ("good2", "H")] =
      .error "Cannot Download File (capabilities.canDownload) - [object Object]" := by
    rfl
  refine ⟨heval, fun b h => ?_, by rfl, fun fetchById files r hr => ?_⟩
  · rw [heval] at h
    exact Except.noConfusion h
  · cases files with
    | nil => exact absurd hr (fun hh => Except.noConfusion hh)
    | cons f fs => exact loadAllFold_ok fetchById (f :: fs) true r hr

/-- Concrete discovery environment where the folder query finds
"folder-1". -/
def demoDriveEnv : DriveListEnv := { matching := ["folder-1"], createdId := "folder-new" }

/-- Concrete discovery environment where the app-data query finds
"app-1". -/
def demoAppEnv : DriveListEnv := { matching := ["app-1"], createdId := "app-new" }

/-- A service state with neither `_folderId` nor `_fileManagerAppFile`
assigned. -/
def demoState0 : ManagerState := {}

/-- The app-settings file `demoFetchById` returns for id "app-1". -/
def demoAppFile : JsonFile := { id := "app-1", name := "F app-1" }

/-- C8 fails as stated: `getFolderId` resolves the folder id but never
assigns `_folderId` (no statement in the source writes that field), so
the state after a successful resolution is unchanged and the next call
issues remote calls again instead of returning a cached value. -/
theorem C8_getFolderId_uncached_counterexample :
    (getFolderId demoState0 demoDriveEnv).2.1 = "folder-1" ∧
    (getFolderId demoState0 demoDriveEnv).1 = demoState0 ∧
    ((getFolderId demoState0 demoDriveEnv).1)._folderId = none ∧
    (getFolderId (getFolderId demoState0 demoDriveEnv).1 demoDriveEnv).2.2 ≠ [] := by
  refine ⟨rfl, rfl, rfl, ?_⟩
  decide

/-- C8 (amended): `getFolderId` and `getAppDataByName` follow
discover-or-create — one remote call (the list query, using the first
match) when a folder/file with the well-known name exists, a second
create call only when none is found.  `getFileManagerAppFile` caches
the resolved app file in `_fileManagerAppFile`, and every subsequent
call returns that cached value with zero remote calls; `getFolderId`,
however, never assigns `_folderId` — the state comes back unchanged —
so only the unset-field discovery path repeats on every call. -/
theorem C8_discover_or_create_caching (st : ManagerState) (env : DriveListEnv)
    (fetchById : String → Except String JsonFile) :
    ((getFolderId st env).1 = st) ∧
    (∀ fid rest, st._folderId = none → env.matching = fid :: rest →
      (getFolderId st env).2.1 = fid ∧ (getFolderId st env).2.2.length = 1) ∧
    (st._folderId = none → env.matching = [] →
      (getFolderId st env).2.1 = env.createdId ∧
      (getFolderId st env).2.2.length = 2) ∧
    (∀ name fid rest, env.matching = fid :: rest →
      (getAppDataByName name env fetchById).1 = fetchById fid ∧
      (getAppDataByName name env fetchById).2.length = 2) ∧
    (∀ name, env.matching = [] →
      (getAppDataByName name env fetchById).1 = fetchById env.createdId ∧
      (getAppDataByName name env fetchById).2.length = 3) ∧
    (∀ f, st._fileManagerAppFile = none →
      (getFileManagerAppFile st env fetchById).2.1 = .ok f →
      ((getFileManagerAppFile st env fetchById).1)._fileManagerAppFile = some f) ∧
    (∀ f, st._fileManagerAppFile = some f → f.id.length > 0 →
      getFileManagerAppFile st env fetchById = (st, .ok f, [])) := by
  refine ⟨?_, fun fid rest hf hm => ?_, fun hf hm => ?_, fun name fid rest hm => ?_,
    fun name hm => ?_, fun f hf hok => ?_, fun f hf hpos => ?_⟩
  · unfold getFolderId
    rcases hfo : st._folderId with _ | fid
    · cases env.matching <;> simp
    · by_cases hlen : fid.length > 0
      · simp [hlen]
      · cases env.matching <;> simp [hlen]
  · simp [getFolderId, hf, hm]
  · simp [getFolderId, hf, hm]
  · simp [getAppDataByName, hm]
  · simp [getAppDataByName, hm]
  · unfold getFileManagerAppFile at hok ⊢
    rcases happ : getAppDataByName fileManagerAppFileName env fetchById with ⟨res, calls⟩
    rcases res with e | file
    · simp [hf, happ] at hok
    · simp [hf, happ] at hok ⊢
      exact hok
  · simp [getFileManagerAppFile, hf, hpos]

/-- Closed instantiation of `C8_discover_or_create_caching`: a folder
resolution that leaves the state unchanged, and an app-file resolution
that is cached and served without remote calls afterwards. -/
theorem C8_discover_or_create_witness :
    (getFolderId demoState0 demoDriveEnv).1 = demoState0 ∧
    (getFolderId demoState0 demoDriveEnv).2.1 = "folder-1" ∧
    (getFolderId demoState0 demoDriveEnv).2.2.length = 1 ∧
    ((getFileManagerAppFile demoState0 demoAppEnv demoFetchById).1)._fileManagerAppFile =
      some demoAppFile ∧
    getFileManagerAppFile { demoState0 with _fileManagerAppFile := some demoAppFile }
      demoAppEnv demoFetchById =
      ({ demoState0 with _fileManagerAppFile := some demoAppFile }, .ok demoAppFile, []) :=
  ⟨(C8_discover_or_create_caching demoState0 demoDriveEnv demoFetchById).1,
   ((C8_discover_or_create_caching demoState0 demoDriveEnv demoFetchById).2.1
      "folder-1" [] rfl rfl).1,
   ((C8_discover_or_create_caching demoState0 demoDriveEnv demoFetchById).2.1
      "folder-1" [] rfl rfl).2,
   (C8_discover_or_create_caching demoState0 demoAppEnv demoFetchById).2.2.2.2.2.1
      demoAppFile rfl rfl,
   (C8_discover_or_create_caching
      { demoState0 with _fileManagerAppFile := some demoAppFile }
      demoAppEnv demoFetchById).2.2.2.2.2.2 demoAppFile rfl (by decide)⟩

/-- C9: every save (PATCH) and create (POST) request body is the
bit-exact multipart string
`\r\n--<boundary>\r\nContent-Type: application/json\r\n\r\n` +
JSON-encoded metadata `{name, mimeType[, parents]}` +
`\r\n--<boundary>\r\nContent-Type: <document MIME type>\r\n\r\n` +
raw document content text + `\r\n--<boundary>--`, sent with header
`Content-Type: multipart/related; boundary="<boundary>"`; the document
MIME type in the metadata part and in the content part is the same
fixed constant `JsonFile.MIME_TYPE`. -/
theorem C9_multipart_wire_format (file : JsonFile) (d : Json) (name : String)
    (content : Option Json) (folder resId resTime : String) :
    (file.getDiffData = some d →
      ∃ req, (saveJsonFile file).2.1 = [req] ∧
        req.body =
          "\r\n--" ++ boundary ++ "\r\n" ++
          "Content-Type: application/json\r\n\r\n" ++
          Json.stringify (Json.obj
            [("name", Json.str file.name),
             ("mimeType", Json.str JsonFile.MIME_TYPE)]) ++
          ("\r\n--" ++ boundary ++ "\r\n") ++
          "Content-Type: " ++ JsonFile.MIME_TYPE ++ "\r\n\r\n" ++
          file.contentAsString ++
          ("\r\n--" ++ boundary ++ "--") ∧
        req.contentTypeHeader = "multipart/related; boundary=\"" ++ boundary ++ "\"" ∧
        req.method = "PATCH") ∧
    (∃ req, (createAndSaveNewJsonFile name content folder resId resTime).2.1 = [req] ∧
      req.body =
        "\r\n--" ++ boundary ++ "\r\n" ++
        "Content-Type: application/json\r\n\r\n" ++
        Json.stringify (Json.obj
          [("name", Json.str (name ++ fileNameAffix ++ ".json")),
           ("parents", Json.arr [Json.str folder]),
           ("mimeType", Json.str JsonFile.MIME_TYPE)]) ++
        ("\r\n--" ++ boundary ++ "\r\n") ++
        "Content-Type: " ++ JsonFile.MIME_TYPE ++ "\r\n\r\n" ++
        (match content with
         | some c => Json.stringify c
         | none => Json.stringify Json.null) ++
        ("\r\n--" ++ boundary ++ "--") ∧
      req.contentTypeHeader = "multipart/related; boundary=\"" ++ boundary ++ "\"" ∧
      req.method = "POST") := by
  constructor
  · intro hd
    simp only [saveJsonFile, hd]
    refine ⟨_, rfl, ?_, rfl, rfl⟩
    simp [delimiter, close_delim, String.append_assoc]
  · cases content with
    | none =>
        simp only [createAndSaveNewJsonFile]
        refine ⟨_, rfl, ?_, rfl, rfl⟩
        simp [delimiter, close_delim, JsonFile.contentAsString, String.append_assoc]
    | some c =>
        simp only [createAndSaveNewJsonFile]
        refine ⟨_, rfl, ?_, rfl, rfl⟩
        simp [delimiter, close_delim, JsonFile.contentAsString, JsonFile.setContent,
          String.append_assoc]

/-- Closed instantiation of `C9_multipart_wire_format`: the PATCH body
of a concrete dirty document's save and the POST body of a concrete
create, with the shared boundary header. -/
theorem C9_multipart_wire_format_witness :
    (∃ req, (saveJsonFile demoDirtyFile).2.1 = [req] ∧
      req.body =
        "\r\n--" ++ boundary ++ "\r\n" ++
        "Content-Type: application/json\r\n\r\n" ++
        Json.stringify (Json.obj
          [("name", Json.str demoDirtyFile.name),
           ("mimeType", Json.str JsonFile.MIME_TYPE)]) ++
        ("\r\n--" ++ boundary ++ "\r\n") ++
        "Content-Type: " ++ JsonFile.MIME_TYPE ++ "\r\n\r\n" ++
        demoDirtyFile.contentAsString ++
        ("\r\n--" ++ boundary ++ "--") ∧
      req.contentTypeHeader = "multipart/related; boundary=\"" ++ boundary ++ "\"" ∧
      req.method = "PATCH") ∧
    (∃ req, (createAndSaveNewJsonFile "New" (some (Json.num 1)) "folder-1"
        "id-9" "t9").2.1 = [req] ∧
      req.body =
        "\r\n--" ++ boundary ++ "\r\n" ++
        "Content-Type: application/json\r\n\r\n" ++
        Json.stringify (Json.obj
          [("name", Json.str ("New" ++ fileNameAffix ++ ".json")),
           ("parents", Json.arr [Json.str "folder-1"]),
           ("mimeType", Json.str JsonFile.MIME_TYPE)]) ++
        ("\r\n--" ++ boundary ++ "\r\n") ++
        "Content-Type: " ++ JsonFile.MIME_TYPE ++ "\r\n\r\n" ++
        Json.stringify (Json.num 1) ++
        ("\r\n--" ++ boundary ++ "--") ∧
      req.contentTypeHeader = "multipart/related; boundary=\"" ++ boundary ++ "\"" ∧
      req.method = "POST") :=
  ⟨(C9_multipart_wire_format demoDirtyFile demoDirtyFile.current "New"
      (some (Json.num 1)) "folder-1" "id-9" "t9").1 rfl,
   (C9_multipart_wire_format demoDirtyFile demoDirtyFile.current "New"
      (some (Json.num 1)) "folder-1" "id-9" "t9").2⟩

/-- C10: every event published on `_fileEvent$` by any operation —
`loadById`, `unloadFile`/`unloadById`, `clearAllDocuments`,
`saveJsonFile`, `createAndSaveNewJsonFile` — carries a non-null file
(document ids being strings of the model, each such file's id is
defined); the only null-file event is the bootstrap sentinel, which is
injected by `startWith` directly into the snapshot fold (where it is a
no-op) and never flows through the raw subject, so the
`listenDocumentById` filter over bus events whose files are all
non-null only ever inspects non-null files. -/
theorem C10_published_files_nonnull :
    (∀ fetched, ∀ e ∈ (loadById fetched).2, e.file.isSome) ∧
    (∀ file, ∀ e ∈ unloadFile file, e.file.isSome) ∧
    (∀ docID snap, ∀ e ∈ (unloadById docID snap).2, e.file.isSome) ∧
    (∀ snap, ∀ e ∈ clearAllDocuments snap, e.file.isSome) ∧
    (∀ file, ∀ e ∈ (saveJsonFile file).2.2, e.file.isSome) ∧
    (∀ name content folder resId resTime,
      ∀ e ∈ (createAndSaveNewJsonFile name content folder resId resTime).2.2,
        e.file.isSome) ∧
    sentinelEvent.file = none ∧
    (∀ m, accumulator m sentinelEvent = .ok m) ∧
    (∀ docId busEvents, (∀ e ∈ busEvents, e.file.isSome) →
      ∀ e ∈ futureStateEvents docId busEvents, e.file.isSome) := by
  refine ⟨fun fetched e he => ?_, fun file e he => ?_, fun docID snap e he => ?_,
    fun snap e he => ?_, fun file e he => ?_,
    fun name content folder resId resTime e he => ?_,
    rfl, fun m => rfl, fun docId busEvents hall e he => ?_⟩
  · cases fetched with
    | error msg => simp [loadById] at he
    | ok f =>
        simp [loadById] at he
        simp [he]
  · cases file with
    | none => simp [unloadFile] at he
    | some f =>
        simp [unloadFile] at he
        simp [he]
  · cases docID with
    | none => simp [unloadById, unloadFile] at he
    | some s =>
        by_cases hlen : s.length < 1
        · simp [unloadById, hlen] at he
        · cases hget : SnapMap.get s snap with
          | none => simp [unloadById, hlen, hget, unloadFile] at he
          | some f =>
              simp [unloadById, hlen, hget, unloadFile] at he
              simp [he]
  · simp only [clearAllDocuments, List.mem_map] at he
    obtain ⟨p, _, hp⟩ := he
    simp [← hp]
  · cases hd : file.getDiffData with
    | none => simp [saveJsonFile, hd] at he
    | some d =>
        simp [saveJsonFile, hd] at he
        simp [he]
  · simp [createAndSaveNewJsonFile] at he
    simp [he]
  · have hmem := (List.mem_filter.mp he).1
    exact hall e hmem

/-- Closed instantiation of `C10_published_files_nonnull`: concrete
published event lists, each with a non-null file, and the sentinel's
null file consumed by the fold unchanged. -/
theorem C10_published_files_nonnull_witness :
    (loadById (.ok demoFile)).2 = [{ action := "load", file := some demoFile }] ∧
    (unloadById (some "doc-2") demoMap).2 =
      [{ action := "unload", file := some demoFile2 }] ∧
    clearAllDocuments demoMap = [{ action := "unload", file := some demoFile2 }] ∧
    (saveJsonFile demoDirtyFile).2.2 =
      [{ action := "save", file := some demoDirtyFile.updateClone }] ∧
    sentinelEvent.file = none ∧
    accumulator demoMap sentinelEvent = .ok demoMap :=
  ⟨rfl, by decide, rfl, rfl,
   C10_published_files_nonnull.2.2.2.2.2.2.1,
   C10_published_files_nonnull.2.2.2.2.2.2.2.1 demoMap⟩
